import Mathlib

/-!
Shallow embedding of the pattoo-web preflight/bootstrap scripts:
`setup/install.py` (command runner, dependency check, configuration
check, install pipeline) and `bin/pattoo_webd.py` (service
orchestrator).  Effects are modelled explicitly: every function
returns the list of lines it printed, the list of external commands it
launched, and an outcome that is either a normal return or a process
exit with a specific code.  The outside world (spawn results, the
filesystem, the environment) is passed in as parameters.
-/

/-- Result of one attempted process spawn, as seen by `_run_script`:
either the subprocess ran to completion with a return code and captured
stdout/stderr (decoded text), or `subprocess.Popen`/`communicate` raised,
in which case the exception type, value, traceback object and the
formatted traceback text are available to the handler. -/
inductive SpawnOutcome where
  | ok (returncode : Int) (stdoutdata stderrdata : String)
  | exc (excType excValue excTraceObj fmtExc : String)
deriving DecidableEq

/-- Either the process terminated via `sys.exit code`, or the modelled
function returned a value normally. -/
inductive Outcome (α : Type) where
  | exit (code : Nat)
  | ret (a : α)
deriving DecidableEq

/-- Observable effects of running a modelled function: the lines printed
to stdout in order, the external command lines launched in order, and
the outcome. -/
structure Eff (α : Type) where
  printed : List String
  cmds : List String
  out : Outcome α
deriving DecidableEq

/-- Sequential composition: Python statement sequencing, where a
`sys.exit` in the first statement prevents the second from running. -/
def Eff.seq {α β : Type} (x : Eff α) (f : α → Eff β) : Eff β :=
  match x.out with
  | .exit c => ⟨x.printed, x.cmds, .exit c⟩
  | .ret a =>
    let y := f a
    ⟨x.printed ++ y.printed, x.cmds ++ y.cmds, y.out⟩

/-- A single `print(s)` statement. -/
def printEff (s : String) : Eff Unit := ⟨[s], [], .ret ()⟩

/-- Python `str.split('\n')`, on the character list. -/
def splitNL : List Char → List String
  | [] => [""]
  | c :: rest =>
    if c = '\n' then "" :: splitNL rest
    else
      match splitNL rest with
      | [] => [String.mk [c]]
      | s :: ss => String.mk (c :: s.data) :: ss

/-- Python `str.split('\n')` (used on the decoded stdout/stderr). -/
def splitLines (s : String) : List String := splitNL s.data

/-- Python whitespace, as stripped by `str.strip()`. -/
def isPySpace (c : Char) : Bool :=
  c = ' ' || c = '\t' || c = '\n' || c = '\r' || c = '\x0b' || c = '\x0c'

/-- Python `str.strip()`: drop leading and trailing whitespace. -/
def pyStrip (s : String) : String :=
  String.mk (((s.data.dropWhile isPySpace).reverse.dropWhile isPySpace).reverse)

/-- The message printed by `_log` before exiting:
`'\nPATTOO Error: {}'.format(message)`. -/
def log_line (message : String) : String := "\nPATTOO Error: " ++ message

/-- `install.py` `_log(message)`: print the error line and `sys.exit(3)`. -/
def log_exit {α : Type} (message : String) : Eff α :=
  ⟨[log_line message], [], .exit 3⟩

/-- `install.py` `_run_script(cli_string, die)`: announce the command,
spawn it (any spawn exception is caught and recorded as messages, with
the initial `returncode = 1`, `stdoutdata = stderrdata = b''` kept); on a
non-zero return code, emit the return code and every stdout/stderr line,
then `sys.exit(2)` when `die`; otherwise return
`(returncode, stdoutdata, stderrdata)`. -/
def run_script (world : String → SpawnOutcome) (cli_string : String)
    (die : Bool) : Eff (Int × String × String) :=
  let announce := "Running Command: \"" ++ cli_string ++ "\""
  let (messages0, returncode, stdoutdata, stderrdata) :=
    match world cli_string with
    | .ok rc o e => (([] : List String), rc, o, e)
    | .exc ty v tr fe =>
      (["Bug: Exception Type:" ++ ty ++ ", Exception Instance: " ++ v ++
          ", Stack Trace Object: " ++ tr ++ "]    ", fe], (1 : Int), "", "")
  if returncode ≠ 0 then
    let messages := messages0 ++
      ("Return code:" ++ toString returncode) ::
      ((splitLines stdoutdata).map (fun l => "STDOUT: " ++ l) ++
        (splitLines stderrdata).map (fun l => "STDERR: " ++ l))
    if die then ⟨announce :: messages, [cli_string], .exit 2⟩
    else ⟨announce :: messages, [cli_string], .ret (returncode, stdoutdata, stderrdata)⟩
  else ⟨[announce], [cli_string], .ret (returncode, stdoutdata, stderrdata)⟩

/-- The return code `_run_script` ends up with for a given command:
the subprocess's code when the spawn succeeded, the initial sentinel `1`
when the spawn raised. -/
def worldRC (world : String → SpawnOutcome) (cmd : String) : Int :=
  match world cmd with
  | .ok rc _ _ => rc
  | .exc _ _ _ _ => 1

/-- Python `line.startswith('#')`: the first character is `#`. -/
def startsWithHash (s : String) : Bool :=
  match s.data with
  | [] => false
  | c :: _ => c = '#'

/-- The reading loop of `check_pip3`: strip each raw line; skip it when
it starts with `#` or is empty; append it to `lines` otherwise. -/
def collectLines : List String → List String
  | [] => []
  | raw :: rest =>
    let stripped := pyStrip raw
    if startsWithHash stripped || stripped == "" then collectLines rest
    else stripped :: collectLines rest

/-- The package-name extraction of `check_pip3`:
`line.split('=', 1)[0]` is the prefix of the line before the first `=`,
and `.split('>', 1)[0]` of that is its prefix before the first `>`. -/
def pkgOf (line : String) : String :=
  String.mk ((line.data.takeWhile (fun c => c != '=')).takeWhile (fun c => c != '>'))

/-- The fatal message `check_pip3` logs for a missing package. -/
def pip_missing_msg (package : String) : String :=
  "Python3 \"" ++ package ++
    "\" package not installed or pip3 command not found. Please fix."

/-- The per-package loop of `check_pip3`: announce the package, run
`pip3 show {package}` with `die=False`, call `_log` (exit 3) on a
non-zero return code, print the OK line and continue otherwise. -/
def checkPackages (world : String → SpawnOutcome) : List String → Eff Unit
  | [] => ⟨[], [], .ret ()⟩
  | line :: rest =>
    let package := pkgOf line
    let announce := "??: Checking package " ++ package
    let r := run_script world ("pip3 show " ++ package) false
    match r.out with
    | .exit c => ⟨announce :: r.printed, r.cmds, .exit c⟩
    | .ret (returncode, _, _) =>
      if returncode ≠ 0 then
        ⟨announce :: r.printed ++ [log_line (pip_missing_msg package)], r.cmds, .exit 3⟩
      else
        let restEff := checkPackages world rest
        ⟨announce :: r.printed ++ ("OK: package " ++ line) :: restEff.printed,
          r.cmds ++ restEff.cmds, restEff.out⟩

/-- `install.py` `check_pip3()`: `_log` (exit 3) when the requirements
file `ROOT_DIR + '/pip_requirements.txt'` is absent; otherwise collect
its stripped non-comment non-blank lines and check each package in
order.  The file system is abstracted as the existence flag and the raw
line list of the file. -/
def check_pip3 (world : String → SpawnOutcome) (fileExists : Bool)
    (fileRawLines : List String) (root_dir : String) : Eff Unit :=
  if fileExists = false then
    log_exit ("Cannot find PIP3 requirements file " ++ root_dir ++
      "/pip_requirements.txt")
  else
    checkPackages world (collectLines fileRawLines)

/-- The `_log` message of `check_config` when `PATTOO_CONFIGDIR` is not
in the environment. -/
def env_unset_msg : String :=
  "Set your PATTOO_CONFIGDIR to point to your configuration directory like this:\n\n$ export PATTOO_CONFIGDIR=/path/to/configuration/directory\n\nThen run this command again.\n"

/-- The `_log` message of `check_config` when `PATTOO_CONFIGDIR` does
not name an existing directory. -/
def dir_missing_msg : String :=
  "Set your PATTOO_CONFIGDIR cannot be found. Set the variable to point to an existing directory:\n\n$ export PATTOO_CONFIGDIR=/path/to/configuration/directory\n\nThen run this command again.\n"

/-- `install.py` `check_config()`: print the header; `_log` (exit 3)
when `PATTOO_CONFIGDIR` is absent from the environment; `_log` (exit 3)
when it is set but `os.path.isdir` rejects it; then run the
`setup/_check_config.py` schema check through `_run_script` with the
default `die=True` and print the OK line.  The environment variable is
abstracted as an `Option String` and the directory test as a
predicate. -/
def check_config (world : String → SpawnOutcome) (env : Option String)
    (isDir : String → Bool) (root_dir : String) : Eff Unit :=
  (printEff "??: Checking configuration").seq (fun _ =>
    match env with
    | none => log_exit env_unset_msg
    | some configdir =>
      if isDir configdir = false then log_exit dir_missing_msg
      else
        (run_script world (root_dir ++ "/setup/_check_config.py") true).seq
          (fun _ => printEff "OK: Configuration check passed"))

/-- The `next_steps()` message of `install.py`. -/
def next_steps_message : String :=
  "\nHooray successful installation! Panna Cotta Time!\n\nNext Steps:\n    1) Start the 'bin/pattoo_webd.py' script to accept agent data.\n    2) Configure your agents to post data to this server.\n\nOther steps:\n    1) You can make pattoo-web a system daemon by running the scripts in the\n       'setup/systemd' directory. Visit this link for details:\n\n       https://github.com/PalisadoesFoundation/pattoo-web/tree/master/setup/systemd\n\n"

/-- `install.py` `next_steps()`: print the guidance message. -/
def next_steps : Eff Unit := printEff next_steps_message

/-- `install.py` `main()`: `check_pip3()`, then `check_config()`, then
`next_steps()`. -/
def install_main (world : String → SpawnOutcome) (fileExists : Bool)
    (fileRawLines : List String) (env : Option String)
    (isDir : String → Bool) (root_dir : String) : Eff Unit :=
  (check_pip3 world fileExists fileRawLines root_dir).seq (fun _ =>
    (check_config world env isDir root_dir).seq (fun _ => next_steps))

/-- Modelled from the spec: the constant `PATTOO_WEBD_NAME` of
`pattoo_web/constants.py` is absent from the checked sources; its value
is the logical service name asserted by
`tests/test_pattoo_web/test_constants.py`. -/
def PATTOO_WEBD_NAME : String := "pattoo_webd"

/-- Modelled from the spec: the constant `PATTOO_WEBD_PROXY` of
`pattoo_web/constants.py` is absent from the checked sources; its value
is the logical service name plus the fixed `-gunicorn` suffix asserted
by `tests/test_pattoo_web/test_constants.py`. -/
def PATTOO_WEBD_PROXY : String := "pattoo_webd-gunicorn"

/-- `pattoo_shared.agent.Agent(name, config=config)` as used by
`bin/pattoo_webd.py`: a service descriptor holding its name and the
configuration object it is bound to. -/
structure Agent (C : Type) where
  name : String
  config : C

/-- `pattoo_shared.agent.AgentAPI(name, proxy_name, app, config=config)`
as used by `bin/pattoo_webd.py`: the API-serving descriptor holding its
name, the proxy name, the WSGI application and the configuration
object. -/
structure AgentAPI (C A : Type) where
  name : String
  proxy_name : String
  app : A
  config : C

/-- The two descriptors `bin/pattoo_webd.py` `main()` builds from one
`Config()` object: `agent_api = AgentAPI(PATTOO_WEBD_NAME,
PATTOO_WEBD_PROXY, PATTOO_WEBD, config=config)` and `agent_gunicorn =
Agent(PATTOO_WEBD_PROXY, config=config)`. -/
def webd_descriptors {C A : Type} (config : C) (app : A) :
    AgentAPI C A × Agent C :=
  (⟨PATTOO_WEBD_NAME, PATTOO_WEBD_PROXY, app, config⟩,
    ⟨PATTOO_WEBD_PROXY, config⟩)

/-- `bin/pattoo_webd.py` `main()`: build the two descriptors, then
`cli.control(agent_api)` followed by `cli.control(agent_gunicorn)`.
Modelled from the spec: `AgentCLI.control` is the external
`pattoo_shared` collaborator; per the spec it either brings the named
service to a running state or fails by aborting the process, so it is
abstracted as a name-indexed `Outcome` and an abort in the first call
prevents the second (Python statement sequencing).  The returned list is
the trace of service names on which `control` was invoked, in order. -/
def webd_main {C A : Type} (config : C) (app : A)
    (control : String → Outcome Unit) : List String × Outcome Unit :=
  let descriptors := webd_descriptors (C := C) (A := A) config app
  let agent_api := descriptors.1
  let agent_gunicorn := descriptors.2
  match control agent_api.name with
  | .exit c => ([agent_api.name], .exit c)
  | .ret _ =>
    match control agent_gunicorn.name with
    | .exit c => ([agent_api.name, agent_gunicorn.name], .exit c)
    | .ret _ => ([agent_api.name, agent_gunicorn.name], .ret ())

/-- Claim C1: when the spawned command returns a non-zero exit code and
`die=True`, `_run_script` terminates the process with exit code 2, and
before terminating it has emitted the command string, the exit code, and
every individual line of the captured stdout and stderr. -/
theorem run_script_failfast_nonzero (world : String → SpawnOutcome)
    (cli : String) (rc : Int) (o e : String)
    (hw : world cli = SpawnOutcome.ok rc o e) (hrc : rc ≠ 0) :
    (run_script world cli true).out = Outcome.exit 2 ∧
    ("Running Command: \"" ++ cli ++ "\"") ∈ (run_script world cli true).printed ∧
    ("Return code:" ++ toString rc) ∈ (run_script world cli true).printed ∧
    (∀ l ∈ splitLines o, ("STDOUT: " ++ l) ∈ (run_script world cli true).printed) ∧
    (∀ l ∈ splitLines e, ("STDERR: " ++ l) ∈ (run_script world cli true).printed) := by
  have hprint : (run_script world cli true).printed =
      ("Running Command: \"" ++ cli ++ "\"") ::
        ("Return code:" ++ toString rc) ::
          ((splitLines o).map (fun l => "STDOUT: " ++ l) ++
            (splitLines e).map (fun l => "STDERR: " ++ l)) := by
    simp [run_script, hw, hrc]
  have hout : (run_script world cli true).out = Outcome.exit 2 := by
    simp [run_script, hw, hrc]
  refine ⟨hout, ?_, ?_, ?_, ?_⟩ <;> rw [hprint]
  · exact List.mem_cons_self _ _
  · exact List.mem_cons_of_mem _ (List.mem_cons_self _ _)
  · intro l hl
    simp only [List.mem_cons, List.mem_append, List.mem_map]
    right; right; left
    exact ⟨l, hl, rfl⟩
  · intro l hl
    simp only [List.mem_cons, List.mem_append, List.mem_map]
    right; right; right
    exact ⟨l, hl, rfl⟩

/-- Witness for C1 at a concrete world: the command exits 7 with two
stdout lines and one stderr line. -/
theorem run_script_failfast_nonzero_witness :
    (run_script (fun _ => SpawnOutcome.ok 7 "a\nb" "c") "ls -1" true).out =
      Outcome.exit 2 :=
  (run_script_failfast_nonzero (fun _ => SpawnOutcome.ok 7 "a\nb" "c")
    "ls -1" 7 "a\nb" "c" rfl (by decide)).1

/-- Claim C5: with `die=False`, `_run_script` returns the exact return
code of the spawned command together with the full captured stdout and
stderr, and never terminates the process — covering both the zero and
the non-zero case. -/
theorem run_script_no_failfast (world : String → SpawnOutcome)
    (cli : String) (rc : Int) (o e : String)
    (hw : world cli = SpawnOutcome.ok rc o e) :
    (run_script world cli false).out = Outcome.ret (rc, o, e) := by
  simp only [run_script, hw]
  by_cases h : rc = 0 <;> simp [h]

/-- Witness for C5 at two concrete worlds: exit code 0 and exit
code 5. -/
theorem run_script_no_failfast_witness :
    (run_script (fun _ => SpawnOutcome.ok 0 "out" "err") "cmd arg" false).out =
      Outcome.ret (0, "out", "err") ∧
    (run_script (fun _ => SpawnOutcome.ok 5 "out" "err") "cmd arg" false).out =
      Outcome.ret (5, "out", "err") :=
  ⟨run_script_no_failfast (fun _ => SpawnOutcome.ok 0 "out" "err")
      "cmd arg" 0 "out" "err" rfl,
    run_script_no_failfast (fun _ => SpawnOutcome.ok 5 "out" "err")
      "cmd arg" 5 "out" "err" rfl⟩

/-- Counterexample for C3 as stated: at a concrete spawn failure with
`die=False`, the synthesized result is `(1, "", "")` — the sentinel exit
code is non-zero, but the stderr component is the EMPTY string; the
execution-error message (a nonempty diagnostic) is only printed to the
log, not populated in place of stderr.  And with `die=True` the process
exits with code 2, so the caller receives no structured outcome at
all. -/
theorem run_script_spawn_failure_cex :
    (run_script (fun _ => SpawnOutcome.exc "OSError" "not found" "tbobj" "Traceback text")
        "nosuch --version" false).out = Outcome.ret (1, "", "") ∧
    ("Bug: Exception Type:OSError, Exception Instance: not found, Stack Trace Object: tbobj]    ") ∈
      (run_script (fun _ => SpawnOutcome.exc "OSError" "not found" "tbobj" "Traceback text")
        "nosuch --version" false).printed ∧
    ("" : String) ≠
      "Bug: Exception Type:OSError, Exception Instance: not found, Stack Trace Object: tbobj]    " ∧
    (run_script (fun _ => SpawnOutcome.exc "OSError" "not found" "tbobj" "Traceback text")
        "nosuch --version" true).out = Outcome.exit 2 := by
  refine ⟨rfl, ?_, ?_, rfl⟩
  · simp [run_script, splitLines, splitNL]
  · decide

/-- Claim C3 amended: on launch failure, `_run_script` catches the
exception and, with `die=False`, returns a synthetic result with the
non-zero sentinel exit code 1 and EMPTY stdout/stderr, while the
execution-error messages (the formatted exception line and the
traceback) are emitted to the printed log output; with `die=True` it
terminates with exit code 2.  No fault is propagated unhandled in
either case. -/
theorem run_script_spawn_failure (world : String → SpawnOutcome)
    (cli ty v tr fe : String)
    (hw : world cli = SpawnOutcome.exc ty v tr fe) :
    (run_script world cli false).out = Outcome.ret (1, "", "") ∧
    ("Bug: Exception Type:" ++ ty ++ ", Exception Instance: " ++ v ++
      ", Stack Trace Object: " ++ tr ++ "]    ") ∈ (run_script world cli false).printed ∧
    fe ∈ (run_script world cli false).printed ∧
    (run_script world cli true).out = Outcome.exit 2 := by
  simp [run_script, hw, splitLines, splitNL]

/-- Witness for the amended C3 at a concrete spawn failure. -/
theorem run_script_spawn_failure_witness :
    (run_script (fun _ => SpawnOutcome.exc "ty" "v" "tr" "fe") "x" false).out =
      Outcome.ret (1, "", "") :=
  (run_script_spawn_failure (fun _ => SpawnOutcome.exc "ty" "v" "tr" "fe")
    "x" "ty" "v" "tr" "fe" rfl).1

/-- Claim C4: `check_config` checks environment-reference-absent before
directory-not-existing — with the variable unset it fails with the
env-unset message no matter what the directory predicate says — each
violation is fatal through the shared `_log` path with exit code 3, and
the two messages are distinct, so the conditions are distinguishable in
the report. -/
theorem check_config_order (world : String → SpawnOutcome)
    (isDir : String → Bool) (root_dir d : String) :
    (check_config world none isDir root_dir =
      ⟨["??: Checking configuration", log_line env_unset_msg], [],
        Outcome.exit 3⟩) ∧
    (isDir d = false →
      check_config world (some d) isDir root_dir =
        ⟨["??: Checking configuration", log_line dir_missing_msg], [],
          Outcome.exit 3⟩) ∧
    env_unset_msg ≠ dir_missing_msg := by
  refine ⟨rfl, ?_, ?_⟩
  · intro h
    simp [check_config, Eff.seq, printEff, log_exit, h]
  · decide

/-- Witness for C4 at a concrete directory predicate that rejects the
configured path. -/
theorem check_config_order_witness :
    check_config (fun _ => SpawnOutcome.ok 0 "" "") (some "/nope")
        (fun _ => false) "/r" =
      ⟨["??: Checking configuration", log_line dir_missing_msg], [],
        Outcome.exit 3⟩ :=
  (check_config_order (fun _ => SpawnOutcome.ok 0 "" "")
    (fun _ => false) "/r" "/nope").2.1 rfl

/-- Two successive `takeWhile`s keep the prefix satisfying the
conjunction of the predicates. -/
theorem takeWhile_and {α : Type} (p q : α → Bool) (l : List α) :
    (l.takeWhile p).takeWhile q = l.takeWhile (fun a => p a && q a) := by
  induction l with
  | nil => rfl
  | cons a l ih =>
    by_cases hp : p a
    · by_cases hq : q a <;> simp [List.takeWhile_cons, hp, hq, ih]
    · simp [List.takeWhile_cons, hp]

/-- Every `_run_script` call launches exactly its one command line. -/
theorem run_script_cmds (world : String → SpawnOutcome) (cli : String)
    (die : Bool) : (run_script world cli die).cmds = [cli] := by
  unfold run_script
  cases world cli <;> dsimp only <;> split <;> first | rfl | (split <;> rfl)

/-- The first command `checkPackages` launches on a non-empty line list
is the introspection command for the first line's package. -/
theorem checkPackages_first_cmd (world : String → SpawnOutcome)
    (line : String) (rest : List String) :
    (checkPackages world (line :: rest)).cmds.head? =
      some ("pip3 show " ++ pkgOf line) := by
  unfold checkPackages
  dsimp only
  split
  · simp [run_script_cmds]
  · split <;> simp [run_script_cmds]

/-- Claim C6: the retained requirement lines are exactly the stripped
raw lines that are non-empty and do not begin with `#`; the package name
is everything before the first `=` or `>` of the line; and that package
name is what is passed to the `pip3 show` introspection command. -/
theorem line_parsing (raw : List String) (line : String)
    (world : String → SpawnOutcome) (rest : List String) :
    collectLines raw =
      (raw.map pyStrip).filter (fun l => !(startsWithHash l) && !(l == "")) ∧
    pkgOf line =
      String.mk (line.data.takeWhile (fun c => c != '=' && c != '>')) ∧
    (checkPackages world (line :: rest)).cmds.head? =
      some ("pip3 show " ++ pkgOf line) := by
  refine ⟨?_, ?_, checkPackages_first_cmd world line rest⟩
  · induction raw with
    | nil => rfl
    | cons a raw ih =>
      by_cases h1 : startsWithHash (pyStrip a) <;>
        by_cases h2 : pyStrip a = "" <;>
          simp [collectLines, List.filter_cons, h1, h2, ih]
  · unfold pkgOf
    rw [takeWhile_and]

/-- No retained line survives when every raw line strips to a blank or
to a `#` comment. -/
theorem collectLines_nil (raw : List String)
    (h : ∀ l ∈ raw, startsWithHash (pyStrip l) = true ∨ pyStrip l = "") :
    collectLines raw = [] := by
  induction raw with
  | nil => rfl
  | cons a raw ih =>
    rcases h a (List.mem_cons_self a raw) with h1 | h1 <;>
      simp [collectLines, h1,
        ih (fun l hl => h l (List.mem_cons_of_mem a hl))]

/-- Claim C10: when the requirements file exists but every line strips
to a blank or a `#` comment, `check_pip3` returns normally, prints
nothing (so it never enters the fatal `_log` path) and launches no
external command. -/
theorem check_pip3_all_skipped (world : String → SpawnOutcome)
    (raw : List String) (root_dir : String)
    (h : ∀ l ∈ raw, startsWithHash (pyStrip l) = true ∨ pyStrip l = "") :
    check_pip3 world true raw root_dir = ⟨[], [], Outcome.ret ()⟩ := by
  simp [check_pip3, collectLines_nil raw h, checkPackages]

/-- Witness for C10 on a file of one blank line, one whitespace line and
one comment line. -/
theorem check_pip3_all_skipped_witness :
    check_pip3 (fun _ => SpawnOutcome.ok 1 "" "") true ["", "   ", "# requests"]
      "/r" = ⟨[], [], Outcome.ret ()⟩ :=
  check_pip3_all_skipped (fun _ => SpawnOutcome.ok 1 "" "")
    ["", "   ", "# requests"] "/r" (by decide)

/-- A failing first package makes `checkPackages` fatal (exit 3)
immediately, with a result that does not depend on the remaining lines
and whose only launched command is the failing package's. -/
theorem checkPackages_cons_fail (world : String → SpawnOutcome)
    (line : String) (rest : List String)
    (h : worldRC world ("pip3 show " ++ pkgOf line) ≠ 0) :
    checkPackages world (line :: rest) = checkPackages world [line] ∧
    (checkPackages world (line :: rest)).out = Outcome.exit 3 ∧
    (checkPackages world (line :: rest)).cmds = ["pip3 show " ++ pkgOf line] := by
  cases hw : world ("pip3 show " ++ pkgOf line) with
  | ok rc o e =>
    have hrc : rc ≠ 0 := by simpa [worldRC, hw] using h
    refine ⟨?_, ?_, ?_⟩ <;> simp [checkPackages, run_script, hw, hrc]
  | exc ty v tr fe =>
    refine ⟨?_, ?_, ?_⟩ <;> simp [checkPackages, run_script, hw]

/-- A succeeding first package makes `checkPackages` process it and
continue with the rest, concatenating effects. -/
theorem checkPackages_cons_ok (world : String → SpawnOutcome)
    (line : String) (rest : List String)
    (h : worldRC world ("pip3 show " ++ pkgOf line) = 0) :
    checkPackages world (line :: rest) =
      ⟨(checkPackages world [line]).printed ++ (checkPackages world rest).printed,
        (checkPackages world [line]).cmds ++ (checkPackages world rest).cmds,
        (checkPackages world rest).out⟩ := by
  cases hw : world ("pip3 show " ++ pkgOf line) with
  | ok rc o e =>
    have hrc : rc = 0 := by simpa [worldRC, hw] using h
    subst hrc
    simp [checkPackages, run_script, hw]
  | exc ty v tr fe =>
    exact absurd h (by simp [worldRC, hw])

/-- A one-line list makes `checkPackages` launch exactly that line's
introspection command, whether the package is present or not. -/
theorem checkPackages_singleton_cmds (world : String → SpawnOutcome)
    (p : String) :
    (checkPackages world [p]).cmds = ["pip3 show " ++ pkgOf p] := by
  cases hw : world ("pip3 show " ++ pkgOf p) with
  | ok rc o e =>
    by_cases hrc : rc = 0 <;> simp [checkPackages, run_script, hw, hrc]
  | exc ty v tr fe => simp [checkPackages, run_script, hw]

/-- When every package before `bad` succeeds and `bad` fails,
`checkPackages` on `pre ++ bad :: post` equals its run on `pre ++ [bad]`
(nothing after `bad` is processed), exits with code 3, and launches
exactly the introspection commands of `pre` followed by `bad`'s. -/
theorem checkPackages_halt (world : String → SpawnOutcome) (bad : String)
    (post : List String)
    (hbad : worldRC world ("pip3 show " ++ pkgOf bad) ≠ 0) :
    ∀ pre : List String,
      (∀ p ∈ pre, worldRC world ("pip3 show " ++ pkgOf p) = 0) →
      checkPackages world (pre ++ bad :: post) =
          checkPackages world (pre ++ [bad]) ∧
        (checkPackages world (pre ++ bad :: post)).out = Outcome.exit 3 ∧
        (checkPackages world (pre ++ bad :: post)).cmds =
          pre.map (fun p => "pip3 show " ++ pkgOf p) ++
            ["pip3 show " ++ pkgOf bad] := by
  intro pre
  induction pre with
  | nil =>
    intro _
    obtain ⟨h1, h2, h3⟩ := checkPackages_cons_fail world bad post hbad
    exact ⟨h1, h2, h3⟩
  | cons p pre ih =>
    intro hpre
    have hp : worldRC world ("pip3 show " ++ pkgOf p) = 0 :=
      hpre p (List.mem_cons_self p pre)
    obtain ⟨heq, hout, hcmds⟩ :=
      ih (fun q hq => hpre q (List.mem_cons_of_mem p hq))
    have hpCmds := checkPackages_singleton_cmds world p
    refine ⟨?_, ?_, ?_⟩
    · rw [List.cons_append, List.cons_append,
        checkPackages_cons_ok world p (pre ++ bad :: post) hp,
        checkPackages_cons_ok world p (pre ++ [bad]) hp, heq]
    · rw [List.cons_append, checkPackages_cons_ok world p (pre ++ bad :: post) hp]
      exact hout
    · rw [List.cons_append, checkPackages_cons_ok world p (pre ++ bad :: post) hp]
      simp [hpCmds, hcmds]

/-- Claim C2: with the requirements file present, if the retained lines
split as `pre ++ bad :: post` where every package of `pre` is reported
installed and `bad`'s introspection reports non-zero, `check_pip3` halts
at `bad` through the fatal path with exit code 3; its whole observable
run equals the run on `pre ++ [bad]` alone, and the commands launched
are exactly those for `pre` and `bad` — no package after `bad` is
checked or reported.  With the file missing, it is fatal (exit 3) before
launching any command at all. -/
theorem check_pip3_halts_at_first_missing (world : String → SpawnOutcome)
    (raw pre post : List String) (bad root_dir : String)
    (hsplit : collectLines raw = pre ++ bad :: post)
    (hpre : ∀ p ∈ pre, worldRC world ("pip3 show " ++ pkgOf p) = 0)
    (hbad : worldRC world ("pip3 show " ++ pkgOf bad) ≠ 0) :
    (check_pip3 world true raw root_dir = checkPackages world (pre ++ [bad]) ∧
      (check_pip3 world true raw root_dir).out = Outcome.exit 3 ∧
      (check_pip3 world true raw root_dir).cmds =
        pre.map (fun p => "pip3 show " ++ pkgOf p) ++
          ["pip3 show " ++ pkgOf bad]) ∧
    ((check_pip3 world false raw root_dir).out = Outcome.exit 3 ∧
      (check_pip3 world false raw root_dir).cmds = []) := by
  have hcp : check_pip3 world true raw root_dir =
      checkPackages world (pre ++ bad :: post) := by
    simp [check_pip3, hsplit]
  obtain ⟨h1, h2, h3⟩ := checkPackages_halt world bad post hbad pre hpre
  exact ⟨⟨hcp.trans h1, by rw [hcp]; exact h2, by rw [hcp]; exact h3⟩, rfl, rfl⟩

/-- Witness for C2: `requests` is installed, `PyYAML` is missing,
`pandas` comes after it; the run is fatal with exit 3 and only the two
first packages are ever introspected. -/
theorem check_pip3_halts_at_first_missing_witness :
    (check_pip3
        (fun cmd => if cmd = "pip3 show requests"
          then SpawnOutcome.ok 0 "Name: requests" ""
          else SpawnOutcome.ok 1 "" "WARNING: Package(s) not found: PyYAML")
        true ["requests>=2.0", "PyYAML", "pandas"] "/r").out = Outcome.exit 3 :=
  (check_pip3_halts_at_first_missing
    (fun cmd => if cmd = "pip3 show requests"
      then SpawnOutcome.ok 0 "Name: requests" ""
      else SpawnOutcome.ok 1 "" "WARNING: Package(s) not found: PyYAML")
    ["requests>=2.0", "PyYAML", "pandas"] ["requests>=2.0"] ["pandas"]
    "PyYAML" "/r" (by decide) (by decide) (by decide)).1.2.1

/-- Claim C7: `main` of `install.py` runs dependency check, then
configuration check, then the next-steps message, in that fixed order.
When both checks return normally, the whole run is their printed output
in stage order followed by the next-steps message; when the dependency
stage exits, the run is exactly that stage's run (the configuration
stage and the message never happen); when the dependency stage returns
but the configuration stage exits, the run is the two stages' output
with that exit and no next-steps message. -/
theorem install_pipeline_order (world : String → SpawnOutcome)
    (fileExists : Bool) (raw : List String) (env : Option String)
    (isDir : String → Bool) (root_dir : String) :
    ((check_pip3 world fileExists raw root_dir).out = Outcome.ret () →
      (check_config world env isDir root_dir).out = Outcome.ret () →
      install_main world fileExists raw env isDir root_dir =
        ⟨(check_pip3 world fileExists raw root_dir).printed ++
            ((check_config world env isDir root_dir).printed ++
              [next_steps_message]),
          (check_pip3 world fileExists raw root_dir).cmds ++
            ((check_config world env isDir root_dir).cmds ++ []),
          Outcome.ret ()⟩) ∧
    (∀ c, (check_pip3 world fileExists raw root_dir).out = Outcome.exit c →
      install_main world fileExists raw env isDir root_dir =
        check_pip3 world fileExists raw root_dir) ∧
    (∀ c, (check_pip3 world fileExists raw root_dir).out = Outcome.ret () →
      (check_config world env isDir root_dir).out = Outcome.exit c →
      install_main world fileExists raw env isDir root_dir =
        ⟨(check_pip3 world fileExists raw root_dir).printed ++
            (check_config world env isDir root_dir).printed,
          (check_pip3 world fileExists raw root_dir).cmds ++
            (check_config world env isDir root_dir).cmds,
          Outcome.exit c⟩) := by
  refine ⟨?_, ?_, ?_⟩
  · intro h1 h2
    simp [install_main, Eff.seq, h1, h2, next_steps, printEff]
  · intro c h1
    simp only [install_main, Eff.seq, h1]
    rw [← h1]
  · intro c h1 h2
    simp [install_main, Eff.seq, h1, h2]

/-- Witness for C7 at a fully succeeding concrete run: empty
requirements file, configuration directory present, schema check exits
0; the run prints the configuration lines then the next-steps
message. -/
theorem install_pipeline_order_witness :
    install_main (fun _ => SpawnOutcome.ok 0 "" "") true [] (some "/c")
        (fun _ => true) "/r" =
      ⟨(check_pip3 (fun _ => SpawnOutcome.ok 0 "" "") true [] "/r").printed ++
          ((check_config (fun _ => SpawnOutcome.ok 0 "" "") (some "/c")
              (fun _ => true) "/r").printed ++ [next_steps_message]),
        (check_pip3 (fun _ => SpawnOutcome.ok 0 "" "") true [] "/r").cmds ++
          ((check_config (fun _ => SpawnOutcome.ok 0 "" "") (some "/c")
              (fun _ => true) "/r").cmds ++ []),
        Outcome.ret ()⟩ :=
  (install_pipeline_order (fun _ => SpawnOutcome.ok 0 "" "") true []
    (some "/c") (fun _ => true) "/r").1 rfl rfl

/-- Claim C8: `main` of `bin/pattoo_webd.py` invokes the control call on
the API agent first; if that call fails, the proxy agent's control call
is never invoked; and in every run the invocation trace is the API agent
alone or the API agent followed by the proxy agent. -/
theorem webd_control_order {C A : Type} (config : C) (app : A)
    (control : String → Outcome Unit) :
    (webd_main config app control).1.head? = some PATTOO_WEBD_NAME ∧
    (∀ c, control PATTOO_WEBD_NAME = Outcome.exit c →
      (webd_main config app control).1 = [PATTOO_WEBD_NAME] ∧
      PATTOO_WEBD_PROXY ∉ (webd_main config app control).1) ∧
    ((webd_main config app control).1 = [PATTOO_WEBD_NAME] ∨
      (webd_main config app control).1 =
        [PATTOO_WEBD_NAME, PATTOO_WEBD_PROXY]) := by
  refine ⟨?_, ?_, ?_⟩
  · cases hapi : control PATTOO_WEBD_NAME with
    | exit c => simp [webd_main, webd_descriptors, hapi]
    | ret a =>
      cases hprox : control PATTOO_WEBD_PROXY with
      | exit c => simp [webd_main, webd_descriptors, hapi, hprox]
      | ret b => simp [webd_main, webd_descriptors, hapi, hprox]
  · intro c hapi
    refine ⟨?_, ?_⟩ <;> simp [webd_main, webd_descriptors, hapi]
    decide
  · cases hapi : control PATTOO_WEBD_NAME with
    | exit c => left; simp [webd_main, webd_descriptors, hapi]
    | ret a =>
      cases hprox : control PATTOO_WEBD_PROXY with
      | exit c => right; simp [webd_main, webd_descriptors, hapi, hprox]
      | ret b => right; simp [webd_main, webd_descriptors, hapi, hprox]

/-- Witness for C8 at a concrete failing API control call: the trace is
the API agent alone. -/
theorem webd_control_order_witness :
    (webd_main () () (fun _ => Outcome.exit 1)).1 = [PATTOO_WEBD_NAME] :=
  ((webd_control_order () () (fun _ => Outcome.exit 1)).2.1 1 rfl).1

/-- Claim C9: `main` of `bin/pattoo_webd.py` builds exactly two
descriptors bound to the same configuration object: the API agent named
with the logical service name `pattoo_webd` and the proxy agent named
with that name plus the fixed `-gunicorn` suffix,
`pattoo_webd-gunicorn`. -/
theorem webd_two_descriptors {C A : Type} (config : C) (app : A) :
    (webd_descriptors config app).1.name = "pattoo_webd" ∧
    (webd_descriptors config app).2.name = "pattoo_webd-gunicorn" ∧
    (webd_descriptors config app).2.name =
      PATTOO_WEBD_NAME ++ "-gunicorn" ∧
    (webd_descriptors config app).1.config = config ∧
    (webd_descriptors (A := A) config app).2.config = config :=
  ⟨rfl, rfl, rfl, rfl, rfl⟩
